import Mathlib

/-!
Verification of the `usgs_riverdata` package (`src/usgs_riverdata/__init__.py`)
against its natural-language specification.

The module is embedded shallowly:

* JSON values (`json.loads` output) are the inductive type `Json`.
* Python dicts used for URL parameters are association lists with
  Python-dict update semantics (`dictSet` updates the first occurrence
  in place, otherwise appends; insertion order preserved).
* A Python value that is either a string or `None` is `Option String`;
  Python truthiness of such a value is `pyTruthy`.
* The `gage` object's attributes form `GageState`; methods are functions
  from state to state plus an outcome.  Exceptions are the `Except Err`
  monad, with `Err` constructors named after the spec's error taxonomy
  (each constructor's comment records the concrete Python exception).
* The HTTP collaborator (`urllib.request.urlopen` + `read` + `json.loads`)
  is a function `String → FetchResult` from the request URL to one of:
  parsed body, JSON-parse failure, non-2xx status, or transport failure.
  Each method additionally returns the list of request URLs actually
  issued, so "no network call was attempted" is `requests = []`.
* Percent-escaping inside `urllib.parse.urlencode` is elided (keys and
  values are joined verbatim); no claim inspects escaped characters.
-/

namespace UsgsRiverdata

/-- JSON values, as produced by `json.loads`. -/
inductive Json where
  | null : Json
  | str : String → Json
  | arr : List Json → Json
  | obj : List (String × Json) → Json

/-- Errors raised by the module, named after the spec's taxonomy.
Each constructor notes the concrete Python exception it models. -/
inductive Err where
  /-- `AttributeError` from `check_params`, and the `ValueError` raised by
  `retrieve_flow` for a falsy `gage_id` (spec: `MissingParameterError`). -/
  | missingParameter : String → Err
  /-- The `ValueError` raised by `_pandas_no_exist`
  (spec: `UnavailableDependencyError`). -/
  | unavailableDependency : Err
  /-- `NameError`: lookup of a global name that is unbound because
  `import pandas` failed and the `except: pass` left it undefined. -/
  | nameError : Err
  /-- `urllib.error.URLError` from `urlopen` on transport failure
  (spec: `NetworkError`). -/
  | networkError : Err
  /-- `urllib.error.HTTPError` from `urlopen` on a non-2xx status,
  carrying status and body (spec: `HTTPStatusError`). -/
  | httpStatusError : Nat → String → Err
  /-- `json.JSONDecodeError` / `KeyError` / `IndexError` / `TypeError`
  while parsing the body or walking the expected nested path
  (spec: `MalformedResponseError`). -/
  | malformedResponse : Err
deriving DecidableEq

/-- Truthiness of a Python value that is a string or `None`:
`None` and the empty string are falsy. -/
def pyTruthy : Option String → Bool
  | none => false
  | some s => !(s == "")

/-- A Python dict of URL parameters: string keys, values that are
strings or `None` (insertion-ordered association list, keys unique). -/
abbrev Params := List (String × Option String)

/-- Dict read: value of the first (unique) occurrence of the key. -/
def dictGet : Params → String → Option (Option String)
  | [], _ => none
  | (k1, v1) :: rest, k => if k1 = k then some v1 else dictGet rest k

/-- Dict write `d[k] = v`: update the existing entry in place,
otherwise append (Python dict semantics). -/
def dictSet : Params → String → Option String → Params
  | [], k, v => [(k, v)]
  | (k1, v1) :: rest, k, v =>
    if k1 = k then (k, v) :: rest else (k1, v1) :: dictSet rest k v

/-- Dict membership `k in d`. -/
def dictContains (d : Params) (k : String) : Bool :=
  (dictGet d k).isSome

/-- Python `str` applied to a string-or-`None` value, as `urlencode`
renders dict values (`str(None) = "None"`). -/
def pyStr : Option String → String
  | none => "None"
  | some s => s

/-- `urllib.parse.urlencode` on the parameter dict, with percent-escaping
elided: `k1=v1&k2=v2&...` in insertion order. -/
def urlencode (d : Params) : String :=
  String.intercalate "&" (d.map fun kv => kv.1 ++ "=" ++ pyStr kv.2)

/-- The attributes of one `gage` instance
(`self._json_string` is not modeled: no claim mentions it, and its
content is determined by `json_data`). -/
structure GageState where
  site_code : Option String
  time_series : Option Json
  time_period : Option String
  url_params : Params
  data_frame : Option Json
  startDT : Option String
  endDT : Option String
  json_data : Option Json

/-- `gage.__init__`: field initialisation.  The caller passes the
`url_params` dict by value here; the identity (aliasing) of the shared
mutable default dict is modeled separately by `gage_init_ref` below. -/
def gage_init (site_code : Option String) (time_period : Option String)
    (url_params : Params) : GageState :=
  { site_code := site_code
    time_series := none
    time_period := time_period
    url_params := url_params
    data_frame := none
    startDT := none
    endDT := none
    json_data := none }

/-- `self.__dict__[param]` for the attribute names `check_params` is
ever called with (`site_code`, `startDT`, `endDT`). -/
def gageAttr (g : GageState) : String → Option String
  | "site_code" => g.site_code
  | "startDT" => g.startDT
  | "endDT" => g.endDT
  | _ => none

/-- `gage.check_params`: raise `AttributeError` (`missingParameter`) at
the first listed name whose attribute is `None` and which is absent from
`url_params`.  The source's default argument is `("site_code",)`;
callers of the default pass `["site_code"]` explicitly here. -/
def check_params (g : GageState) : List String → Except Err Unit
  | [] => .ok ()
  | p :: rest =>
    if (gageAttr g p).isNone && !dictContains g.url_params p then
      .error (.missingParameter p)
    else
      check_params g rest

/-- The fixed service endpoint (`self._base_url`). -/
def base_url : String := "http://waterservices.usgs.gov/nwis/iv/"

/-- Result of one `urlopen` + `read` + `json.loads` round trip. -/
inductive FetchResult where
  /-- 2xx response whose body parsed as this JSON value. -/
  | ok : Json → FetchResult
  /-- 2xx response whose body failed to parse as JSON. -/
  | badJson : FetchResult
  /-- non-2xx status: `urlopen` raises `HTTPError` with status and body. -/
  | httpError : Nat → String → FetchResult
  /-- transport failure: `urlopen` raises `URLError`. -/
  | netError : FetchResult

/-- The tail of `_retrieve_data` after the parameters are final: build
the request URL, issue the GET, parse the body, store it.  Returns the
new state, the URLs requested, and the outcome. -/
def runRequest (g : GageState) (transport : String → FetchResult) :
    GageState × List String × Except Err Unit :=
  let request_url := base_url ++ "?" ++ urlencode g.url_params
  match transport request_url with
  | .netError => (g, [request_url], .error .networkError)
  | .httpError status body => (g, [request_url], .error (.httpStatusError status body))
  | .badJson => (g, [request_url], .error .malformedResponse)
  | .ok body => ({ g with json_data := some body }, [request_url], .ok ())

/-- The parameter dict after the two unconditional writes of
`_retrieve_data`: `url_params["format"] = "json"` then
`url_params["sites"] = self.site_code` (the attribute value, which may
be `None`). -/
def paramsBase (g : GageState) : Params :=
  dictSet (dictSet g.url_params "format" (some "json")) "sites" g.site_code

/-- `gage._retrieve_data`: mutate `url_params`, choose between the
`period` shorthand and the (never-copied) explicit date range, then
fetch.  Mirrors the source: `period` is written only when `time_period`
is truthy, `self.startDT` is falsy and `"startDT"` is not a key of
`url_params`; otherwise `check_params(("startDT", "endDT"))` runs on the
already-mutated dict and the commented-out copy of `startDT`/`endDT`
into `url_params` does not happen. -/
def retrieve_data (g : GageState) (transport : String → FetchResult) :
    GageState × List String × Except Err Unit :=
  let up := paramsBase g
  if pyTruthy g.time_period && !pyTruthy g.startDT && !dictContains up "startDT" then
    runRequest { g with url_params := dictSet up "period" g.time_period } transport
  else
    match check_params { g with url_params := up } ["startDT", "endDT"] with
    | .error e => ({ g with url_params := up }, [], .error e)
    | .ok _ => runRequest { g with url_params := up } transport

/-- Lookup of a key in a JSON object (`jd[k]`): `KeyError` when absent,
`TypeError` when the value is not an object — both within the spec's
`MalformedResponseError`. -/
def jsonKey (j : Json) (k : String) : Except Err Json :=
  match j with
  | .obj fields =>
    match dictGetJson fields k with
    | some v => .ok v
    | none => .error .malformedResponse
  | _ => .error .malformedResponse
where
  dictGetJson : List (String × Json) → String → Option Json
    | [], _ => none
    | (k1, v1) :: rest, k => if k1 = k then some v1 else dictGetJson rest k

/-- Indexing of a JSON array (`jd[i]`): `IndexError` when out of range,
`TypeError` when not an array. -/
def jsonIdx (j : Json) (i : Nat) : Except Err Json :=
  match j with
  | .arr items =>
    match items.get? i with
    | some v => .ok v
    | none => .error .malformedResponse
  | _ => .error .malformedResponse

/-- The extraction expression of `_json_to_dataframe`:
`self._json_data["value"]["timeSeries"][0]["values"][0]["value"]`. -/
def extract_time_series (j : Json) : Except Err Json := do
  let v ← jsonKey j "value"
  let ts ← jsonKey v "timeSeries"
  let ts0 ← jsonIdx ts 0
  let vs ← jsonKey ts0 "values"
  let vs0 ← jsonIdx vs 0
  jsonKey vs0 "value"

/-- `gage._json_to_dataframe`: store the extracted nested value as
`time_series` (the assignment happens only if the extraction expression
evaluates without raising), then, when `create_pandas`, materialise
`pandas.DataFrame(self.time_series)` — the collaborator call is modeled
as storing the series it was built from. -/
def json_to_dataframe (g : GageState) (create_pandas : Bool) :
    GageState × Except Err Unit :=
  match g.json_data with
  | none => (g, .error .malformedResponse)
  | some jd =>
    match extract_time_series jd with
    | .error e => (g, .error e)
    | .ok ts =>
      let g1 := { g with time_series := some ts }
      if create_pandas then ({ g1 with data_frame := some ts }, .ok ())
      else (g1, .ok ())

/-- `_pandas_no_exist`: the dedicated `ValueError`
(spec: `UnavailableDependencyError`).  Note that no call site can reach
it: when pandas is available `not pandas` is false, and when the import
failed the bare name `pandas` is unbound and its evaluation raises
`NameError` first. -/
def pandas_no_exist : Except Err (Option Json) :=
  .error .unavailableDependency

/-- `gage.retrieve` (the spec's `fetch_and_extract`).
`pandasAvailable` records whether the module-level `import pandas`
succeeded; when it failed, the guard `return_pandas and not pandas`
evaluates the unbound name `pandas` and raises `NameError`.  Returns the
final state, the request URLs issued, and the outcome (the value
returned: `data_frame` or `time_series`). -/
def retrieve (g : GageState) (pandasAvailable : Bool) (return_pandas : Bool)
    (transport : String → FetchResult) :
    GageState × List String × Except Err (Option Json) :=
  if return_pandas && !pandasAvailable then
    (g, [], .error .nameError)
  else
    match check_params g ["site_code"] with
    | .error e => (g, [], .error e)
    | .ok _ =>
      match retrieve_data g transport with
      | (g1, reqs, .error e) => (g1, reqs, .error e)
      | (g1, reqs, .ok _) =>
        match json_to_dataframe g1 return_pandas with
        | (g2, .error e) => (g2, reqs, .error e)
        | (g2, .ok _) =>
          (g2, reqs, .ok (if return_pandas then g2.data_frame else g2.time_series))

/-- `retrieve_flow`: the shortcut function.  Returns the outcome, the
request URLs issued, and how many `gage` objects were constructed. -/
def retrieve_flow (gage_id : Option String) (pandasAvailable : Bool)
    (return_pandas : Bool) (transport : String → FetchResult) :
    Except Err (Option Json) × List String × Nat :=
  if return_pandas && !pandasAvailable then
    (.error .nameError, [], 0)
  else if !pyTruthy gage_id then
    (.error (.missingParameter "gage_id"), [], 0)
  else
    let g := gage_init gage_id (some "P7D") []
    let r := retrieve g pandasAvailable return_pandas transport
    (r.2.2, r.2.1, 1)

/-!
Object-identity model for the constructor's default argument.

In the source the signature is `def __init__(self, site_code=None,
time_period="P7D", url_params={})`: the default `{}` is ONE dict object,
created when the function is defined and bound to every instance
constructed without an explicit `url_params`.  To state claims about
that aliasing we model a heap of dict objects addressed by `Nat`
references.
-/

/-- Heap of dict objects; a reference is an index. -/
abbrev DictHeap := List Params

/-- Dereference (out-of-range reads give the empty dict; never hit here). -/
def heapGet (h : DictHeap) (r : Nat) : Params :=
  h.getD r []

/-- Overwrite the dict object at a reference. -/
def heapSet (h : DictHeap) (r : Nat) (d : Params) : DictHeap :=
  h.set r d

/-- `d[k] = v` performed through a reference. -/
def heapDictSet (h : DictHeap) (r : Nat) (k : String) (v : Option String) : DictHeap :=
  heapSet h r (dictSet (heapGet h r) k v)

/-- The reference of the one default `{}` object created when
`__init__` is defined at module load. -/
def defaultParamsRef : Nat := 0

/-- The heap at module load: just the default-argument dict, empty. -/
def moduleHeap : DictHeap := [[]]

/-- The identity-relevant part of one constructed `gage` instance. -/
structure GageObj where
  site_code : Option String
  url_params_ref : Nat

/-- `gage(site_code)` or `gage(site_code, url_params=d)` at the object
level: with no `url_params` argument the instance's `self.url_params`
is bound to the default dict object (no copy is taken). -/
def gage_init_ref (h : DictHeap) (site_code : Option String)
    (url_params : Option Nat) : DictHeap × GageObj :=
  match url_params with
  | some r => (h, { site_code := site_code, url_params_ref := r })
  | none => (h, { site_code := site_code, url_params_ref := defaultParamsRef })

/-!
Sample data from the spec's round-trip property: a body whose
`value.timeSeries[0].values[0].value` is the fixed two-record sequence.
-/

/-- First sample record. -/
def sample_rec1 : Json :=
  .obj [("value", .str "1.2"), ("qualifiers", .arr [.str "A"]),
        ("dateTime", .str "2020-01-01T00:00Z")]

/-- Second sample record. -/
def sample_rec2 : Json :=
  .obj [("value", .str "1.3"), ("qualifiers", .arr [.str "A"]),
        ("dateTime", .str "2020-01-01T00:15Z")]

/-- The spec's fixed sample response body. -/
def sample_body : Json :=
  .obj [("value", .obj [("timeSeries",
    .arr [.obj [("values", .arr [.obj [("value",
      .arr [sample_rec1, sample_rec2])]])]])])]

/-- A transport that always fails at the socket level: used to
demonstrate outcomes that must occur before any successful exchange. -/
def t_net : String → FetchResult := fun _ => .netError

/-- A transport that always answers 200 with the spec's sample body. -/
def t_sample : String → FetchResult := fun _ => .ok sample_body

/-- A transport that always answers 404 with body "Not Found". -/
def t_http404 : String → FetchResult := fun _ => .httpError 404 "Not Found"

/-- A gage with a `time_period` and an explicit `startDT`/`endDT` range
supplied through `url_params` — the "both present" configuration. -/
def c1_gage : GageState :=
  gage_init (some "09423350") (some "P7D")
    [("startDT", some "2020-01-01"), ("endDT", some "2020-01-02")]

/-- A default-configured gage for a fixed site. -/
def c3_gage : GageState := gage_init (some "09423350") (some "P7D") []

/-- First instance constructed without a `url_params` argument. -/
def c2_pair1 : DictHeap × GageObj := gage_init_ref moduleHeap (some "11446500") none

/-- Second instance constructed without a `url_params` argument. -/
def c2_pair2 : DictHeap × GageObj := gage_init_ref c2_pair1.1 (some "09423350") none

/-- The heap after the first instance performs the in-place write
`self.url_params["format"] = "json"` (the write `_retrieve_data` does). -/
def c2_heap3 : DictHeap :=
  heapDictSet c2_pair2.1 c2_pair1.2.url_params_ref "format" (some "json")

/-- A gage with no site code anywhere. -/
def w4_gage : GageState := gage_init none (some "P7D") []

/-- A gage with `time_period` set, `startDT` attribute unset, no
`startDT` key, but an `endDT` key in `url_params`. -/
def c5_gage : GageState :=
  gage_init (some "09423350") (some "P7D") [("endDT", some "2020-01-02")]

/-- A gage in the pure period configuration: `time_period` set and no
date keys at all. -/
def w5_gage : GageState := gage_init (some "09423350") (some "P7D") []

/-- A gage with `time_period` unset, a caller-supplied `period` key and
an explicit date range in `url_params`. -/
def c6_gage : GageState :=
  gage_init (some "09423350") none
    [("period", some "P30D"), ("startDT", some "2020-01-01"), ("endDT", some "2020-01-02")]

/-- A gage with `time_period` unset and the explicit date range
supplied in `url_params`. -/
def w6_gage : GageState :=
  gage_init (some "09423350") none
    [("startDT", some "2020-01-01"), ("endDT", some "2020-01-02")]

/-- A default-configured gage used against a failing transport. -/
def w8_gage : GageState := gage_init (some "09423350") (some "P7D") []

/-- A gage whose site code is only in `url_params`, not the attribute. -/
def w10_gage : GageState :=
  gage_init none (some "P7D") [("site_code", some "09423350")]

/-!
Association-list (Python dict) lemmas.
-/

theorem dictGet_dictSet_self (d : Params) (k : String) (v : Option String) :
    dictGet (dictSet d k v) k = some v := by
  induction d with
  | nil => simp [dictSet, dictGet]
  | cons p rest ih =>
    obtain ⟨k1, v1⟩ := p
    by_cases h : k1 = k
    · simp [dictSet, dictGet, h]
    · simp [dictSet, dictGet, h, ih]

theorem dictGet_dictSet_ne (d : Params) {k1 k2 : String} (v : Option String)
    (h : k1 ≠ k2) : dictGet (dictSet d k1 v) k2 = dictGet d k2 := by
  induction d with
  | nil => simp [dictSet, dictGet, h]
  | cons p rest ih =>
    obtain ⟨ka, va⟩ := p
    by_cases ha : ka = k1
    · subst ha
      simp [dictSet, dictGet, h]
    · simp [dictSet, dictGet, ha, ih]

theorem dictContains_dictSet_ne (d : Params) {k1 k2 : String}
    (v : Option String) (h : k1 ≠ k2) :
    dictContains (dictSet d k1 v) k2 = dictContains d k2 := by
  simp [dictContains, dictGet_dictSet_ne d v h]

theorem dictContains_dictSet_self (d : Params) (k : String) (v : Option String) :
    dictContains (dictSet d k v) k = true := by
  simp [dictContains, dictGet_dictSet_self]

/-!
State-preservation lemmas about the pipeline steps.
-/

theorem runRequest_url_params (g : GageState) (t : String → FetchResult) :
    (runRequest g t).1.url_params = g.url_params := by
  cases h : t (base_url ++ "?" ++ urlencode g.url_params) <;> simp [runRequest, h]

theorem runRequest_time_series (g : GageState) (t : String → FetchResult) :
    (runRequest g t).1.time_series = g.time_series := by
  cases h : t (base_url ++ "?" ++ urlencode g.url_params) <;> simp [runRequest, h]

theorem retrieve_data_time_series (g : GageState) (t : String → FetchResult) :
    (retrieve_data g t).1.time_series = g.time_series := by
  by_cases h : (pyTruthy g.time_period && !pyTruthy g.startDT
      && !dictContains (paramsBase g) "startDT") = true
  · simp [retrieve_data, h, runRequest_time_series]
  · cases hc : check_params { g with url_params := paramsBase g } ["startDT", "endDT"] with
    | error e => simp [retrieve_data, h, hc]
    | ok u => simp [retrieve_data, h, hc, runRequest_time_series]

theorem json_to_dataframe_error_state (g : GageState) (b : Bool) (e : Err)
    (h : (json_to_dataframe g b).2 = .error e) : (json_to_dataframe g b).1 = g := by
  cases hj : g.json_data with
  | none => simp [json_to_dataframe, hj]
  | some jd =>
    cases hx : extract_time_series jd with
    | error e1 => simp [json_to_dataframe, hj, hx]
    | ok ts =>
      exfalso
      cases b <;> simp [json_to_dataframe, hj, hx] at h

theorem json_to_dataframe_url_params (g : GageState) (b : Bool) :
    (json_to_dataframe g b).1.url_params = g.url_params := by
  cases hj : g.json_data with
  | none => simp [json_to_dataframe, hj]
  | some jd =>
    cases hx : extract_time_series jd with
    | error e1 => simp [json_to_dataframe, hj, hx]
    | ok ts => cases b <;> simp [json_to_dataframe, hj, hx]

theorem retrieve_data_params_period (g : GageState) (t : String → FetchResult)
    (h : (pyTruthy g.time_period && !pyTruthy g.startDT
      && !dictContains (paramsBase g) "startDT") = true) :
    (retrieve_data g t).1.url_params = dictSet (paramsBase g) "period" g.time_period := by
  simp [retrieve_data, h, runRequest_url_params]

theorem retrieve_data_params_else (g : GageState) (t : String → FetchResult)
    (h : (pyTruthy g.time_period && !pyTruthy g.startDT
      && !dictContains (paramsBase g) "startDT") = false) :
    (retrieve_data g t).1.url_params = paramsBase g := by
  cases hc : check_params { g with url_params := paramsBase g } ["startDT", "endDT"] with
  | error e => simp [retrieve_data, h, hc]
  | ok u => simp [retrieve_data, h, hc, runRequest_url_params]

theorem retrieve_url_params (g : GageState) (pa : Bool) (t : String → FetchResult)
    (hc : check_params g ["site_code"] = .ok ()) :
    (retrieve g pa false t).1.url_params = (retrieve_data g t).1.url_params := by
  rcases hr : retrieve_data g t with ⟨g1, reqs, out⟩
  cases out with
  | error e => simp [retrieve, hc, hr]
  | ok u =>
    rcases hj : json_to_dataframe g1 false with ⟨g2, out2⟩
    have hup : g2.url_params = g1.url_params := by
      have := json_to_dataframe_url_params g1 false
      rw [hj] at this
      exact this
    cases out2 with
    | error e => simp [retrieve, hc, hr, hj, hup]
    | ok u2 => simp [retrieve, hc, hr, hj, hup]

/-- `check_params` on the date pair, written out as the two checks the
loop performs (definitional equality). -/
theorem check_params_dates (g : GageState) :
    check_params g ["startDT", "endDT"]
      = (if ((g.startDT).isNone && !dictContains g.url_params "startDT")
         then .error (.missingParameter "startDT")
         else if ((g.endDT).isNone && !dictContains g.url_params "endDT")
         then .error (.missingParameter "endDT")
         else .ok ()) := rfl

theorem retrieve_data_outcome_else_error (g : GageState) (t : String → FetchResult) (e : Err)
    (h : (pyTruthy g.time_period && !pyTruthy g.startDT
      && !dictContains (paramsBase g) "startDT") = false)
    (hc : check_params { g with url_params := paramsBase g } ["startDT", "endDT"] = .error e) :
    (retrieve_data g t).2.2 = .error e := by
  simp [retrieve_data, h, hc]

/-!
Claim theorems.
-/

/-- C1: in the configuration the claim quantifies over — `time_period`
set, `startDT` and `endDT` both supplied (here as `url_params` keys) —
the call indeed raises no exception, but the assembled query parameters
do NOT include `period`: the guard on line 99 of the source sends the
builder to the `else` branch whenever a `startDT` is present, so the
request goes out with the explicit range only, contrary to the claim
(and to the constructor's docstring, which says the time period is
used).  The third conjunct shows the exact URL that is issued. -/
theorem c1_time_period_not_used_when_range_given :
    (retrieve c1_gage true false t_sample).2.2
      = .ok (some (.arr [sample_rec1, sample_rec2]))
    ∧ dictContains (retrieve c1_gage true false t_sample).1.url_params "period" = false
    ∧ (retrieve c1_gage true false t_sample).2.1
      = [base_url ++ "?" ++ "startDT=2020-01-01&endDT=2020-01-02&format=json&sites=09423350"] :=
  ⟨rfl, rfl, rfl⟩

/-- C2: two instances constructed without a `url_params` argument are
bound to the SAME default dict object (same reference); the second
instance's mapping is empty before any write, and the in-place write
`url_params["format"] = "json"` performed through the first instance is
visible through the second instance's reference — the mapping is a
shared mutable default, not independently owned per instance. -/
theorem c2_default_url_params_dict_is_shared :
    c2_pair1.2.url_params_ref = c2_pair2.2.url_params_ref
    ∧ heapGet c2_pair2.1 c2_pair2.2.url_params_ref = []
    ∧ dictGet (heapGet c2_heap3 c2_pair2.2.url_params_ref) "format" = some (some "json") :=
  ⟨rfl, rfl, rfl⟩

/-- C3: when the module-level `import pandas` failed, a call with
`return_pandas=True` does fail before any network activity (no request
issued, no gage constructed by `retrieve_flow`), but the error is a
`NameError` — the guard `return_pandas and not pandas` evaluates the
unbound name `pandas` — and not the dedicated
`UnavailableDependencyError` (`ValueError`) of `_pandas_no_exist`,
which is unreachable. -/
theorem c3_missing_pandas_raises_unbound_name :
    retrieve c3_gage false true t_net = (c3_gage, [], .error .nameError)
    ∧ retrieve_flow (some "09423350") false true t_net = (.error .nameError, [], 0)
    ∧ Err.nameError ≠ Err.unavailableDependency
    ∧ pandas_no_exist = .error .unavailableDependency :=
  ⟨rfl, rfl, by decide, rfl⟩

/-- C4: whenever the `site_code` attribute is `None` and no
`"site_code"` key is in `url_params`, `check_params` (which is a pure
function of the state: no side effects) fails with
`missingParameter "site_code"`, and `retrieve` fails with the same
error, with no request issued (`[]`) and the state returned unchanged. -/
theorem c4_missing_site_code_fails_before_network
    (g : GageState) (pa : Bool) (t : String → FetchResult)
    (h1 : g.site_code = none)
    (h2 : dictContains g.url_params "site_code" = false) :
    check_params g ["site_code"] = .error (.missingParameter "site_code")
    ∧ retrieve g pa false t = (g, [], .error (.missingParameter "site_code")) := by
  have ha : gageAttr g "site_code" = g.site_code := rfl
  have hc : check_params g ["site_code"] = .error (.missingParameter "site_code") := by
    simp [check_params, ha, h1, h2]
  exact ⟨hc, by simp [retrieve, hc]⟩

/-- C4 witness: the concrete gage with no site code at all. -/
theorem c4_missing_site_code_fails_before_network_witness :
    check_params w4_gage ["site_code"] = .error (.missingParameter "site_code")
    ∧ retrieve w4_gage true false t_net
      = (w4_gage, [], .error (.missingParameter "site_code")) :=
  c4_missing_site_code_fails_before_network w4_gage true t_net rfl rfl

/-- C9: `retrieve_flow` applied to the empty-string site identifier
(falsy but not `None`) fails with the missing-parameter error, with no
request issued and zero gage objects constructed — provided the call is
not first intercepted by the pandas guard (`return_pandas` false, or
pandas available). -/
theorem c9_retrieve_flow_rejects_empty_site
    (pa rp : Bool) (t : String → FetchResult)
    (h : rp = false ∨ pa = true) :
    retrieve_flow (some "") pa rp t = (.error (.missingParameter "gage_id"), [], 0) := by
  have hg : (rp && !pa) = false := by rcases h with h | h <;> simp [h]
  simp [retrieve_flow, hg, pyTruthy]

/-- C9 witness: the empty string with default `return_pandas`. -/
theorem c9_retrieve_flow_rejects_empty_site_witness :
    retrieve_flow (some "") true false t_net
      = (.error (.missingParameter "gage_id"), [], 0) :=
  c9_retrieve_flow_rejects_empty_site true false t_net (Or.inl rfl)

/-- C10: when the `site_code` attribute is `None` but `url_params` has
a `"site_code"` key, validation succeeds, yet the builder writes the
attribute — i.e. `None` — as the `sites` parameter, not the
caller-supplied code. -/
theorem c10_sites_param_takes_none_attribute
    (g : GageState) (sc : String) (t : String → FetchResult)
    (h1 : g.site_code = none)
    (h2 : dictGet g.url_params "site_code" = some (some sc)) :
    check_params g ["site_code"] = .ok ()
    ∧ dictGet (retrieve_data g t).1.url_params "sites" = some none
    ∧ dictGet (retrieve_data g t).1.url_params "sites" ≠ some (some sc) := by
  have ha : gageAttr g "site_code" = g.site_code := rfl
  have hc : check_params g ["site_code"] = .ok () := by
    simp [check_params, ha, h1, dictContains, h2]
  have hval : dictGet (retrieve_data g t).1.url_params "sites" = some none := by
    by_cases hb : (pyTruthy g.time_period && !pyTruthy g.startDT
        && !dictContains (paramsBase g) "startDT") = true
    · rw [retrieve_data_params_period g t hb,
        dictGet_dictSet_ne _ _ (by decide : "period" ≠ "sites"),
        paramsBase, dictGet_dictSet_self, h1]
    · have hb2 : (pyTruthy g.time_period && !pyTruthy g.startDT
          && !dictContains (paramsBase g) "startDT") = false := by
        revert hb
        cases pyTruthy g.time_period && !pyTruthy g.startDT
          && !dictContains (paramsBase g) "startDT" <;> simp
      rw [retrieve_data_params_else g t hb2, paramsBase, dictGet_dictSet_self, h1]
  exact ⟨hc, hval, by rw [hval]; simp⟩

/-- C10 witness: the concrete gage whose code is only in `url_params`. -/
theorem c10_sites_param_takes_none_attribute_witness :
    check_params w10_gage ["site_code"] = .ok ()
    ∧ dictGet (retrieve_data w10_gage t_sample).1.url_params "sites" = some none
    ∧ dictGet (retrieve_data w10_gage t_sample).1.url_params "sites"
      ≠ some (some "09423350") :=
  c10_sites_param_takes_none_attribute w10_gage "09423350" t_sample rfl rfl

/-- C5 counterexample: a configuration satisfying every hypothesis of
the claim as stated — `time_period` set (truthy), `startDT` attribute
unset, no `"startDT"` key in `url_params` — but carrying an `"endDT"`
key, which passes through into the assembled query parameters, so the
parameter set does contain a date-range key. -/
theorem c5_period_branch_counterexample :
    pyTruthy c5_gage.time_period = true
    ∧ c5_gage.startDT = none
    ∧ dictContains c5_gage.url_params "startDT" = false
    ∧ dictContains (retrieve c5_gage true false t_sample).1.url_params "endDT" = true
    ∧ dictGet (retrieve c5_gage true false t_sample).1.url_params "period"
      = some (some "P7D") :=
  ⟨rfl, rfl, rfl, rfl, rfl⟩

/-- C5 (amended): additionally requiring that no `"endDT"` key is in
`url_params`, the parameter set assembled by `retrieve` contains
`format=json`, `sites=<site_code>` and `period=<time_period>`, and
neither date-range key. -/
theorem c5_period_branch_params
    (g : GageState) (sc tp : String) (pa : Bool) (t : String → FetchResult)
    (h1 : g.site_code = some sc) (h2 : g.time_period = some tp) (h3 : tp ≠ "")
    (h4 : g.startDT = none)
    (h5 : dictContains g.url_params "startDT" = false)
    (h6 : dictContains g.url_params "endDT" = false) :
    dictGet (retrieve g pa false t).1.url_params "format" = some (some "json")
    ∧ dictGet (retrieve g pa false t).1.url_params "sites" = some (some sc)
    ∧ dictGet (retrieve g pa false t).1.url_params "period" = some (some tp)
    ∧ dictContains (retrieve g pa false t).1.url_params "startDT" = false
    ∧ dictContains (retrieve g pa false t).1.url_params "endDT" = false := by
  have hcond : (pyTruthy g.time_period && !pyTruthy g.startDT
      && !dictContains (paramsBase g) "startDT") = true := by
    rw [paramsBase, h2, h4,
      dictContains_dictSet_ne _ _ (by decide : "sites" ≠ "startDT"),
      dictContains_dictSet_ne _ _ (by decide : "format" ≠ "startDT"), h5]
    simp [pyTruthy, h3]
  have hc : check_params g ["site_code"] = .ok () := by
    have ha : gageAttr g "site_code" = some sc := h1
    simp [check_params, ha]
  have hfin : (retrieve g pa false t).1.url_params
      = dictSet (dictSet (dictSet g.url_params "format" (some "json")) "sites" (some sc))
          "period" (some tp) := by
    rw [retrieve_url_params g pa t hc, retrieve_data_params_period g t hcond,
      paramsBase, h1, h2]
  refine ⟨?_, ?_, ?_, ?_, ?_⟩ <;> rw [hfin]
  · rw [dictGet_dictSet_ne _ _ (by decide : "period" ≠ "format"),
      dictGet_dictSet_ne _ _ (by decide : "sites" ≠ "format"), dictGet_dictSet_self]
  · rw [dictGet_dictSet_ne _ _ (by decide : "period" ≠ "sites"), dictGet_dictSet_self]
  · rw [dictGet_dictSet_self]
  · rw [dictContains_dictSet_ne _ _ (by decide : "period" ≠ "startDT"),
      dictContains_dictSet_ne _ _ (by decide : "sites" ≠ "startDT"),
      dictContains_dictSet_ne _ _ (by decide : "format" ≠ "startDT"), h5]
  · rw [dictContains_dictSet_ne _ _ (by decide : "period" ≠ "endDT"),
      dictContains_dictSet_ne _ _ (by decide : "sites" ≠ "endDT"),
      dictContains_dictSet_ne _ _ (by decide : "format" ≠ "endDT"), h6]

/-- C5 witness: the pure period configuration. -/
theorem c5_period_branch_params_witness :
    dictGet (retrieve w5_gage true false t_sample).1.url_params "format"
      = some (some "json")
    ∧ dictGet (retrieve w5_gage true false t_sample).1.url_params "sites"
      = some (some "09423350")
    ∧ dictGet (retrieve w5_gage true false t_sample).1.url_params "period"
      = some (some "P7D")
    ∧ dictContains (retrieve w5_gage true false t_sample).1.url_params "startDT" = false
    ∧ dictContains (retrieve w5_gage true false t_sample).1.url_params "endDT" = false :=
  c5_period_branch_params w5_gage "09423350" "P7D" true t_sample rfl rfl
    (by decide) rfl rfl rfl

/-- C6 counterexample: a configuration satisfying the claim's
hypotheses — `time_period` unset, `startDT`/`endDT` satisfied through
`url_params` — whose assembled query parameters nevertheless contain
`period`, because a caller-supplied `"period"` key passes through
verbatim; so "the assembled query parameters omit period" fails as
stated. -/
theorem c6_range_mode_counterexample :
    c6_gage.time_period = none
    ∧ dictContains c6_gage.url_params "startDT" = true
    ∧ dictContains c6_gage.url_params "endDT" = true
    ∧ dictGet (retrieve c6_gage true false t_sample).1.url_params "period"
      = some (some "P30D") :=
  ⟨rfl, rfl, rfl, rfl⟩

/-- C6 (amended): additionally requiring that no `"period"` key was
supplied in `url_params`, the parameters assembled by the
request-building step omit `period`; the builder never copies the
`startDT`/`endDT` attributes into the outgoing parameters (those dict
entries are exactly what the caller put there); and when the date pair
is not satisfied (neither attribute nor key) the step fails with a
missing-parameter error. -/
theorem c6_range_mode_params (g : GageState) (t : String → FetchResult)
    (h1 : pyTruthy g.time_period = false)
    (h2 : dictContains g.url_params "period" = false) :
    dictContains (retrieve_data g t).1.url_params "period" = false
    ∧ dictGet (retrieve_data g t).1.url_params "startDT" = dictGet g.url_params "startDT"
    ∧ dictGet (retrieve_data g t).1.url_params "endDT" = dictGet g.url_params "endDT"
    ∧ (((g.startDT.isSome || dictContains g.url_params "startDT") = false
        ∨ (g.endDT.isSome || dictContains g.url_params "endDT") = false)
       → ∃ p, (retrieve_data g t).2.2 = .error (.missingParameter p)) := by
  have hcond : (pyTruthy g.time_period && !pyTruthy g.startDT
      && !dictContains (paramsBase g) "startDT") = false := by
    simp [h1]
  have hfin := retrieve_data_params_else g t hcond
  have hPBs : dictContains (paramsBase g) "startDT" = dictContains g.url_params "startDT" := by
    rw [paramsBase, dictContains_dictSet_ne _ _ (by decide : "sites" ≠ "startDT"),
      dictContains_dictSet_ne _ _ (by decide : "format" ≠ "startDT")]
  have hPBe : dictContains (paramsBase g) "endDT" = dictContains g.url_params "endDT" := by
    rw [paramsBase, dictContains_dictSet_ne _ _ (by decide : "sites" ≠ "endDT"),
      dictContains_dictSet_ne _ _ (by decide : "format" ≠ "endDT")]
  have hck : check_params { g with url_params := paramsBase g } ["startDT", "endDT"]
      = (if ((g.startDT).isNone && !dictContains (paramsBase g) "startDT")
         then .error (.missingParameter "startDT")
         else if ((g.endDT).isNone && !dictContains (paramsBase g) "endDT")
         then .error (.missingParameter "endDT")
         else .ok ()) := check_params_dates { g with url_params := paramsBase g }
  refine ⟨?_, ?_, ?_, ?_⟩
  · rw [hfin, paramsBase, dictContains_dictSet_ne _ _ (by decide : "sites" ≠ "period"),
      dictContains_dictSet_ne _ _ (by decide : "format" ≠ "period"), h2]
  · rw [hfin, paramsBase, dictGet_dictSet_ne _ _ (by decide : "sites" ≠ "startDT"),
      dictGet_dictSet_ne _ _ (by decide : "format" ≠ "startDT")]
  · rw [hfin, paramsBase, dictGet_dictSet_ne _ _ (by decide : "sites" ≠ "endDT"),
      dictGet_dictSet_ne _ _ (by decide : "format" ≠ "endDT")]
  · intro hd
    by_cases hs : (g.startDT.isSome || dictContains g.url_params "startDT") = false
    · have hs1 : g.startDT = none :=
        Option.not_isSome_iff_eq_none.mp (by simp [(Bool.or_eq_false_iff.mp hs).1])
      have hs2 : dictContains g.url_params "startDT" = false :=
        (Bool.or_eq_false_iff.mp hs).2
      refine ⟨"startDT", retrieve_data_outcome_else_error g t _ hcond ?_⟩
      rw [hck, hs1, hPBs, hs2]
      rfl
    · have hs3 : (g.startDT.isSome || dictContains g.url_params "startDT") = true := by
        revert hs
        cases g.startDT.isSome || dictContains g.url_params "startDT" <;> simp
      have he : (g.endDT.isSome || dictContains g.url_params "endDT") = false := by
        rcases hd with hd | hd
        · rw [hd] at hs3
          cases hs3
        · exact hd
      have he1 : g.endDT = none :=
        Option.not_isSome_iff_eq_none.mp (by simp [(Bool.or_eq_false_iff.mp he).1])
      have he2 : dictContains g.url_params "endDT" = false :=
        (Bool.or_eq_false_iff.mp he).2
      have hc1 : ((g.startDT).isNone && !dictContains (paramsBase g) "startDT") = false := by
        cases ho : g.startDT with
        | some v => simp
        | none =>
          rw [ho] at hs3
          simp at hs3
          rw [hPBs, hs3]
          simp
      refine ⟨"endDT", retrieve_data_outcome_else_error g t _ hcond ?_⟩
      rw [hck, hc1, he1, hPBe, he2]
      rfl

/-- C6 witness: `time_period` unset, date range in `url_params`. -/
theorem c6_range_mode_params_witness :
    dictContains (retrieve_data w6_gage t_sample).1.url_params "period" = false
    ∧ dictGet (retrieve_data w6_gage t_sample).1.url_params "startDT"
      = dictGet w6_gage.url_params "startDT"
    ∧ dictGet (retrieve_data w6_gage t_sample).1.url_params "endDT"
      = dictGet w6_gage.url_params "endDT"
    ∧ (((w6_gage.startDT.isSome || dictContains w6_gage.url_params "startDT") = false
        ∨ (w6_gage.endDT.isSome || dictContains w6_gage.url_params "endDT") = false)
       → ∃ p, (retrieve_data w6_gage t_sample).2.2 = .error (.missingParameter p)) :=
  c6_range_mode_params w6_gage t_sample rfl rfl

/-- C7: for every response body on which the nested extraction
`value.timeSeries[0].values[0].value` yields a sequence of records,
`retrieve` with `return_pandas = false` returns exactly that sequence
unmodified and stores it as `time_series`. -/
theorem c7_roundtrip_time_series (sc : String) (body : Json) (recs : List Json) (pa : Bool)
    (h : extract_time_series body = .ok (.arr recs)) :
    (retrieve (gage_init (some sc) (some "P7D") []) pa false (fun _ => .ok body)).2.2
      = .ok (some (.arr recs))
    ∧ (retrieve (gage_init (some sc) (some "P7D") []) pa false (fun _ => .ok body)).1.time_series
      = some (.arr recs) := by
  constructor <;>
    simp [retrieve, check_params, gageAttr, gage_init, retrieve_data, paramsBase,
      dictSet, dictContains, dictGet, pyTruthy, runRequest, json_to_dataframe, h]

/-- C7 witness: the spec's fixed two-record sample body round-trips. -/
theorem c7_roundtrip_time_series_witness :
    extract_time_series sample_body = .ok (.arr [sample_rec1, sample_rec2])
    ∧ (retrieve (gage_init (some "09423350") (some "P7D") []) true false
        (fun _ => .ok sample_body)).2.2
      = .ok (some (.arr [sample_rec1, sample_rec2]))
    ∧ (retrieve (gage_init (some "09423350") (some "P7D") []) true false
        (fun _ => .ok sample_body)).1.time_series
      = some (.arr [sample_rec1, sample_rec2]) :=
  ⟨rfl, c7_roundtrip_time_series "09423350" sample_body [sample_rec1, sample_rec2] true rfl⟩

/-- C8: every failing call — pandas guard, missing parameter, transport
failure, non-2xx status, or malformed response — leaves `time_series`
at its value from before the call; it is overwritten only after a
successful fetch and parse. -/
theorem c8_failure_preserves_time_series
    (g : GageState) (pa rp : Bool) (t : String → FetchResult) (e : Err)
    (h : (retrieve g pa rp t).2.2 = .error e) :
    (retrieve g pa rp t).1.time_series = g.time_series := by
  by_cases hg : (rp && !pa) = true
  · simp [retrieve, hg]
  · have hg2 : (rp && !pa) = false := by
      revert hg
      cases rp && !pa <;> simp
    cases hc : check_params g ["site_code"] with
    | error e1 => simp [retrieve, hg2, hc]
    | ok u =>
      rcases hr : retrieve_data g t with ⟨g1, reqs, out⟩
      have hts1 : g1.time_series = g.time_series := by
        have h0 := retrieve_data_time_series g t
        rw [hr] at h0
        exact h0
      cases out with
      | error e1 => simp [retrieve, hg2, hc, hr, hts1]
      | ok u1 =>
        rcases hj : json_to_dataframe g1 rp with ⟨g2, out2⟩
        cases out2 with
        | error e2 =>
          have hst : g2 = g1 := by
            have h0 := json_to_dataframe_error_state g1 rp e2 (by rw [hj])
            rw [hj] at h0
            exact h0
          simp [retrieve, hg2, hc, hr, hj, hst, hts1]
        | ok u2 =>
          exfalso
          simp [retrieve, hg2, hc, hr, hj] at h

/-- C8 witness: a 404 response carries `httpStatusError 404 "Not Found"`
and leaves `time_series` at its prior (unset) value. -/
theorem c8_failure_preserves_time_series_witness :
    (retrieve w8_gage true false t_http404).2.2
      = .error (.httpStatusError 404 "Not Found")
    ∧ (retrieve w8_gage true false t_http404).1.time_series = w8_gage.time_series :=
  ⟨rfl, c8_failure_preserves_time_series w8_gage true false t_http404
    (.httpStatusError 404 "Not Found") rfl⟩

end UsgsRiverdata
